import Mathlib

/-!
Shallow embedding of the Titanic dataset analysis app (src/my_app.py).

The embedding covers the three components with real logic:
* `load_and_process_data` (my_app.py lines 38-60): missing-value imputation,
  `pd.cut` age binning and `pd.qcut` fare-quartile binning;
* `create_visualization` (lines 62-120): keyword-driven chart construction
  returning an abstract chart specification, with the `try/except` converting
  any builder error into `None`;
* `TitanicAgent.process_query` (lines 126-172): the ordered keyword branch
  chain producing formatted text responses, with its catch-all apology.

Numbers are modelled with `ℚ` (the Python code computes with IEEE floats; all
quantities appearing in the claims are exact on small rationals, and the
fixed-point formatting of `"{x:.1f}"` is modelled as exact rational rounding).
Strings use Lean `String`; Python's `s.lower()` and the substring test
`a in b` are modelled character-exactly.
-/

namespace TitanicApp

/-! ### String helpers: Python `str.lower` and the `in` substring test -/

/-- Predicate `listStarts n h` is true when `n` is a prefix of `h` (helper for the
Python substring test). -/
def listStarts : List Char → List Char → Bool
  | [], _ => true
  | _ :: _, [] => false
  | a :: as, b :: bs => a == b && listStarts as bs

/-- Predicate `listHas n h` is true when `n` occurs contiguously inside `h`; like
Python, an empty needle is found everywhere. -/
def listHas (needle : List Char) : List Char → Bool
  | [] => needle.isEmpty
  | a :: t => listStarts needle (a :: t) || listHas needle t

/-- Python's `needle in hay` on strings. -/
def strHas (needle hay : String) : Bool := listHas needle.data hay.data

/-- Python's `s.lower()` (ASCII case folding, as in the queries involved). -/
def lowerStr (s : String) : String := String.mk (s.data.map Char.toLower)

/-! ### Counting helpers: `Series.value_counts`, `Series.get`, `groupby` -/

/-- Count of elements equal to `a` (pandas `Series.value_counts().get(a, 0)`). -/
def cnt {α : Type} [DecidableEq α] (a : α) : List α → ℕ
  | [] => 0
  | b :: t => (if b = a then 1 else 0) + cnt a t

/-- Count of elements satisfying a boolean predicate. -/
def cntB {α : Type} (p : α → Bool) : List α → ℕ
  | [] => 0
  | b :: t => (if p b then 1 else 0) + cntB p t

/-- First-seen-order deduplication, accumulator form. -/
def uniqueAux {α : Type} [DecidableEq α] : List α → List α → List α
  | [], _ => []
  | a :: t, seen => if a ∈ seen then uniqueAux t seen else a :: uniqueAux t (a :: seen)

/-- Distinct values of a list in order of first occurrence (the key order in
which a pandas hash-based aggregation first sees each value). -/
def uniqueFS {α : Type} [DecidableEq α] (l : List α) : List α := uniqueAux l []

/-- Comparison placing pairs with the larger count first; `value_counts`
sorts descending by count. -/
def cntGe {α : Type} (a b : α × ℕ) : Prop := b.2 ≤ a.2

instance cntGeDecidable {α : Type} : DecidableRel (@cntGe α) :=
  fun a b => Nat.decLe b.2 a.2

instance cntGeTotal {α : Type} : IsTotal (α × ℕ) cntGe :=
  ⟨fun a b => Nat.le_total b.2 a.2⟩

instance cntGeTrans {α : Type} : IsTrans (α × ℕ) cntGe :=
  ⟨fun _ _ _ h1 h2 => Nat.le_trans h2 h1⟩

/-- Pandas `Series.value_counts()`: one pair `(value, count)` per distinct
value, sorted by descending count.  Ties are modelled as keeping the sort's
order on the first-seen list; the claims proved below never depend on the
order of tied counts. -/
def valueCounts {α : Type} [DecidableEq α] (l : List α) : List (α × ℕ) :=
  List.insertionSort cntGe ((uniqueFS l).map (fun v => (v, cnt v l)))

/-- Ascending sort of rationals (used for medians and quantiles). -/
def sortQ (l : List ℚ) : List ℚ := List.insertionSort (· ≤ ·) l

/-- Ascending sort of naturals (pandas `groupby` sorts group keys). -/
def sortN (l : List ℕ) : List ℕ := List.insertionSort (· ≤ ·) l

/-- String "less or equal" via the core lexicographic order. -/
def strLe (a b : String) : Prop := ¬ b < a

instance strLeDecidable : DecidableRel strLe :=
  fun a b => inferInstanceAs (Decidable ¬(b < a))

/-- Ascending sort of strings (pandas `groupby` sorts group keys). -/
def sortS (l : List String) : List String := List.insertionSort strLe l

/-- The non-null entries of a column (pandas skips NaN when aggregating). -/
def listSomes {α : Type} (l : List (Option α)) : List α := l.filterMap id

/-! ### Numeric helpers -/

/-- Pandas `Series.median()`: the middle of the sorted non-null values, or
the mean of the two middles; `none` on an empty list (pandas yields NaN). -/
def medianQ (l : List ℚ) : Option ℚ :=
  if l = [] then none
  else if l.length % 2 = 1 then some ((sortQ l).getD (l.length / 2) 0)
  else some (((sortQ l).getD (l.length / 2 - 1) 0 + (sortQ l).getD (l.length / 2) 0) / 2)

/-- Linear-interpolation order statistic at fractional index `h` of the
sorted list `s` (numpy's default `quantile` interpolation, used by
`Series.quantile` and hence `pd.qcut`). -/
def interpAt (s : List ℚ) (h : ℚ) : ℚ :=
  s.getD (⌊h⌋).toNat 0 +
    (h - (((⌊h⌋).toNat : ℕ) : ℚ)) *
      (s.getD ((⌊h⌋).toNat + 1) (s.getD (⌊h⌋).toNat 0) - s.getD (⌊h⌋).toNat 0)

/-- Pandas `Series.mode()[0]`: the smallest among the most frequent values;
`none` when there are no non-null values (where Python raises `IndexError`). -/
def modeFirst (l : List String) : Option String :=
  let u := uniqueFS l
  let m := (u.map (fun v => cnt v l)).foldl max 0
  match u.filter (fun v => cnt v l = m) with
  | [] => none
  | c :: cs => some (cs.foldl (fun acc x => if x < acc then x else acc) c)

/-! ### Fixed-point formatting (Python `"{x:.1f}"`, `"{x:.2f}"`) -/

/-- One-decimal rendering of a number given in tenths. -/
def fmtTenths (z : ℕ) : String := toString (z / 10) ++ "." ++ toString (z % 10)

/-- Python `"{x:.1f}"` for a rational, modelled as exact rounding to tenths. -/
def fmtTenthsQ (x : ℚ) : String :=
  let z := round (x * 10)
  (if z < 0 then "-" else "") ++ toString (z.natAbs / 10) ++ "." ++ toString (z.natAbs % 10)

/-- Python `"{x:.2f}"` for a rational, modelled as exact rounding to cents. -/
def fmtCents (x : ℚ) : String :=
  let z := round (x * 100)
  (if z < 0 then "-" else "") ++ toString (z.natAbs / 100) ++ "." ++
    (if z.natAbs % 100 < 10 then "0" else "") ++ toString (z.natAbs % 100)

/-! ### Dataset preprocessing: `load_and_process_data` (my_app.py 38-60) -/

/-- The derived age band labels (my_app.py line 53). -/
inductive AgeGroup
  | child | teen | youngAdult | adult | senior | elderly
deriving DecidableEq, Repr

/-- The derived fare quartile labels (my_app.py line 58). -/
inductive FareCat
  | economy | standard | premium | luxury
deriving DecidableEq, Repr

/-- Model of `pd.cut(age, bins=[0,12,18,35,50,65,100], labels=[...])` with the default
`right=True, include_lowest=False`: right-closed, left-open intervals.  A
value at or below the first edge 0, or above the last edge 100, falls in no
bin and gets NaN (here `none`). -/
def ageGroupOf (x : ℚ) : Option AgeGroup :=
  if x ≤ 0 then none
  else if x ≤ 12 then some .child
  else if x ≤ 18 then some .teen
  else if x ≤ 35 then some .youngAdult
  else if x ≤ 50 then some .adult
  else if x ≤ 65 then some .senior
  else if x ≤ 100 then some .elderly
  else none

/-- The bucket assignment performed by `pd.qcut(fare, q=4, labels=[...])`
once the four quartile edges `e0 ≤ e1 ≤ e2 ≤ e3 ≤ e4` are known: the first
bin includes its left edge (qcut nudges the lowest edge down so the minimum
is included), the rest are left-open and right-closed. -/
def qcutAssign (x e0 e1 e2 e3 e4 : ℚ) : Option FareCat :=
  if x < e0 then none
  else if x ≤ e1 then some .economy
  else if x ≤ e2 then some .standard
  else if x ≤ e3 then some .premium
  else if x ≤ e4 then some .luxury
  else none

/-- The raw table produced by `pd.read_csv`.  The three columns that
`load_and_process_data` accesses (`Age`, `Embarked`, `Fare`) are optional at
the table level: their absence is what raises a `KeyError` during
preprocessing.  `Survived` is the 0/1 survival flag read as a boolean. -/
structure RawTable where
  survivedCol : List Bool
  pclassCol : List ℕ
  sexCol : List String
  ageCol : Option (List (Option ℚ))
  fareCol : Option (List (Option ℚ))
  embarkedCol : Option (List (Option String))
deriving DecidableEq, Repr

/-- One record of the processed Dataset Snapshot, with the two derived
categorical fields. -/
structure ProcRow where
  survived : Bool
  pclass : ℕ
  sex : String
  age : Option ℚ
  fare : Option ℚ
  embarked : String
  ageGroup : Option AgeGroup
  fareCategory : Option FareCat
deriving DecidableEq, Repr

/-- The failure modes of startup preprocessing.  `dataUnavailable` stands for
`pd.read_csv` failing (unreachable source or empty content), `schemaError`
for the `KeyError` on a missing required column, `modeEmpty` for the
`IndexError` of `mode()[0]` on a column with no values, and `binEdges` for
the `ValueError` that `pd.qcut` raises when the quartile edges are not all
distinct. -/
inductive LoadError
  | dataUnavailable | schemaError | modeEmpty | binEdges
deriving DecidableEq, Repr

/-- Model of `Series.fillna(series.median())` on a numeric column: every null entry
is replaced by the median of the original non-null entries (when the column
has no non-null entry the median is NaN and the nulls stay null). -/
def fillQ (col : List (Option ℚ)) : List (Option ℚ) :=
  col.map (fun a => a.orElse (fun _ => medianQ (listSomes col)))

/-- Model of `Series.fillna(m)` on the embarkation column with `m = mode()[0]`. -/
def fillEmb (col : List (Option String)) (m : String) : List String :=
  col.map (fun e => e.getD m)

/-- The `p`-quantile of the non-null values `vals` under numpy's linear
interpolation: the order statistic at fractional index `(n - 1) * p`. -/
def edgeAt (vals : List ℚ) (p : ℚ) : ℚ :=
  interpAt (sortQ vals) (((vals.length : ℚ) - 1) * p)

/-- The five quartile edges `pd.qcut(_, q=4)` computes. -/
def quartEdgesOf (vals : List ℚ) : List ℚ :=
  [edgeAt vals 0, edgeAt vals (1 / 4), edgeAt vals (1 / 2), edgeAt vals (3 / 4), edgeAt vals 1]

/-- Assemble the processed rows from the filled columns and the fare values
`vals` that determine the quartile edges (a DataFrame keeps all columns at
one shared length, so the defaults of `getD` are never reached for
well-formed input). -/
def buildRows (tbl : RawTable) (agesF : List (Option ℚ)) (embsF : List String)
    (faresF : List (Option ℚ)) (vals : List ℚ) : List ProcRow :=
  (List.range tbl.survivedCol.length).map fun i =>
    { survived := tbl.survivedCol.getD i false
      pclass := tbl.pclassCol.getD i 0
      sex := tbl.sexCol.getD i ""
      age := agesF.getD i none
      fare := faresF.getD i none
      embarked := embsF.getD i ""
      ageGroup := (agesF.getD i none).bind ageGroupOf
      fareCategory := (faresF.getD i none).bind (fun f =>
        qcutAssign f (edgeAt vals 0) (edgeAt vals (1 / 4)) (edgeAt vals (1 / 2))
          (edgeAt vals (3 / 4)) (edgeAt vals 1)) }

/-- Model of `load_and_process_data` (my_app.py 38-60).  The `pd.read_csv` outcome is
the input: `none` models the fetch failing or returning no data.  Then, in
source order: fill `Age` with its median, fill `Embarked` with `mode()[0]`,
fill `Fare` with its median, derive `AgeGroup` by fixed bins and
`FareCategory` by `pd.qcut` over the quartile edges of the filled fare
column, which raises when the edges are not pairwise distinct (and also when
there is no fare value at all to take quantiles of). -/
def load_and_process_data (fetched : Option RawTable) : Except LoadError (List ProcRow) :=
  match fetched with
  | none => .error .dataUnavailable
  | some tbl =>
  match tbl.ageCol with
  | none => .error .schemaError
  | some ages =>
  match tbl.embarkedCol with
  | none => .error .schemaError
  | some embs =>
  match modeFirst (listSomes embs) with
  | none => .error .modeEmpty
  | some m =>
  match tbl.fareCol with
  | none => .error .schemaError
  | some fares =>
  if listSomes (fillQ fares) = [] then .error .binEdges
  else if (quartEdgesOf (listSomes (fillQ fares))).Nodup then
    .ok (buildRows tbl (fillQ ages) (fillEmb embs m) (fillQ fares) (listSomes (fillQ fares)))
  else .error .binEdges

/-! ### Visualization builder: `create_visualization` (my_app.py 62-120) -/

/-- The chart kinds the builder can produce. -/
inductive ChartKind
  | histogram | bar | pie
deriving DecidableEq, Repr

/-- Abstract chart specification: kind, category labels, data series and
title.  Colors, opacity and the common layout block (my_app.py 106-114) are
purely presentational and carry no data, so they are not modelled. -/
structure ChartSpec where
  kind : ChartKind
  xLabels : List String
  yValues : List ℚ
  title : String
deriving DecidableEq, Repr

/-- Errors raised inside a builder: plotly express raises `ValueError` when
the `x`/`y` (or `values`/`names`) arguments have different lengths. -/
inductive PyError
  | lengthMismatch
deriving DecidableEq, Repr

/-- Model of `px.bar(x=xs, y=ys, title=t)`: fails when the argument lengths differ. -/
def pxBar (xs : List String) (ys : List ℚ) (t : String) : Except PyError ChartSpec :=
  if xs.length = ys.length then
    .ok { kind := .bar, xLabels := xs, yValues := ys, title := t }
  else .error .lengthMismatch

/-- Model of `px.pie(values=vals, names=ns, title=t)`: fails when the argument
lengths differ. -/
def pxPie (vals : List ℚ) (ns : List String) (t : String) : Except PyError ChartSpec :=
  if ns.length = vals.length then
    .ok { kind := .pie, xLabels := ns, yValues := vals, title := t }
  else .error .lengthMismatch

/-- Percentage of survivors among the rows satisfying `p` — the value of
`df.groupby(k)['Survived'].mean() * 100` for one group. -/
def survivedPct (df : List ProcRow) (p : ProcRow → Bool) : ℚ :=
  let g := df.filter p
  ((cntB (fun r => r.survived) g : ℚ) / (g.length : ℚ)) * 100

/-- The ascending group keys of `df.groupby('Pclass')` (pandas sorts keys). -/
def classKeys (df : List ProcRow) : List ℕ := sortN (uniqueFS (df.map (·.pclass)))

/-- The ascending group keys of `df.groupby('Sex')`. -/
def sexKeys (df : List ProcRow) : List String := sortS (uniqueFS (df.map (·.sex)))

/-- The bar chart of `df.groupby('Sex')['Survived'].mean() * 100`
(my_app.py 93-100). -/
def genderChart (df : List ProcRow) : ChartSpec :=
  { kind := .bar
    xLabels := sexKeys df
    yValues := (sexKeys df).map (fun k => survivedPct df (fun r => r.sex = k))
    title := "Survival Rate by Gender" }

/-- The body of `create_visualization` inside its `try` (my_app.py 66-116):
the keyword dispatch over the lowercased query, each branch building one
chart; no branch matching yields `none` (line 103). -/
def createVisualizationE (df : List ProcRow) (query : String) :
    Except PyError (Option ChartSpec) :=
  let q := lowerStr query
  if strHas "age distribution" q then
    .ok (some { kind := .histogram, xLabels := [],
                yValues := listSomes (df.map (·.age)),
                title := "Age Distribution of Passengers" })
  else if strHas "survival rate by class" q then
    (pxBar ["First", "Second", "Third"]
      ((classKeys df).map (fun k => survivedPct df (fun r => r.pclass = k)))
      "Survival Rate by Passenger Class").map some
  else if strHas "pie chart" q && strHas "class" q then
    (pxPie ((valueCounts (df.map (·.pclass))).map (fun p => (p.2 : ℚ)))
      ["First", "Second", "Third"]
      "Distribution of Passenger Classes").map some
  else if strHas "survival" q && (strHas "gender" q || strHas "male" q || strHas "female" q) then
    (pxBar (sexKeys df)
      ((sexKeys df).map (fun k => survivedPct df (fun r => r.sex = k)))
      "Survival Rate by Gender").map some
  else .ok none

/-- Model of `create_visualization` (my_app.py 62-120): the `except` clause converts
any builder error into `None`. -/
def create_visualization (df : List ProcRow) (query : String) : Option ChartSpec :=
  match createVisualizationE df query with
  | .ok r => r
  | .error _ => none

/-- The five keywords that gate the call to `create_visualization` in `main`
(my_app.py 230-231): without one of them in the query, no chart is even
attempted. -/
def vizGateWords : List String := ["show", "plot", "chart", "graph", "visualize"]

/-- The chart the assistant actually renders for a fresh query (my_app.py
230-234): `create_visualization` runs only when the lowercased query
contains one of the five gate keywords. -/
def assistantChart (df : List ProcRow) (query : String) : Option ChartSpec :=
  if vizGateWords.any (fun t => strHas t (lowerStr query)) then
    create_visualization df query
  else none

/-! ### Statistics responder: `TitanicAgent.process_query` (my_app.py 126-172) -/

/-- The textual intents, one per branch of the `if/elif` chain in
`process_query`, in source order. -/
inductive TextIntent
  | survivalCount | averageAge | genderBreakdown | classBreakdown
  | portBreakdown | fareStats | unrecognized
deriving DecidableEq, Repr

/-- The four chart keywords of the guards on the class and fare branches
(my_app.py 143 and 155); note `visualize` is not among them. -/
def chartGuardWords : List String := ["show", "plot", "chart", "graph"]

/-- Python `any(term in q for term in ['show', 'plot', 'chart', 'graph'])`. -/
def hasChartWord (q : String) : Bool := chartGuardWords.any (fun t => strHas t q)

/-- The branch of the `if/elif` chain of `process_query` that fires for the
lowercased query `q` — the app's textual intent classifier.  First match
wins, in source order (my_app.py 130-168). -/
def classifyText (q : String) : TextIntent :=
  if strHas "survived" q then .survivalCount
  else if strHas "average age" q then .averageAge
  else if strHas "male" q || strHas "female" q || strHas "gender" q then .genderBreakdown
  else if strHas "class" q && !hasChartWord q then .classBreakdown
  else if strHas "embarked" q || strHas "port" q then .portBreakdown
  else if strHas "fare" q && !hasChartWord q then .fareStats
  else .unrecognized

/-- The survival percentage `(s / t) * 100` rounded to one decimal place,
in tenths of a percent (`t > 0`). -/
def pctTenths (s t : ℕ) : ℕ := (round ((s : ℚ) * 1000 / (t : ℚ))).toNat

/-- The percentage text of the survival response:
`f"{(survived_count/total_count)*100:.1f}"`.  numpy scalar division by zero
yields `inf`/`nan` (with a runtime warning, not an exception), which format
as the strings `"inf"`/`"nan"`. -/
def survivalPctStr (s t : ℕ) : String :=
  if t = 0 then (if s = 0 then "nan" else "inf")
  else fmtTenths (pctTenths s t)

/-- The survival count response template (my_app.py 133). -/
def survivalText (s t : ℕ) : String :=
  "🚢 " ++ toString s ++ " passengers survived out of " ++ toString t ++
    " (" ++ survivalPctStr s t ++ "%)"

/-- Model of `df['Age'].mean()` formatted to one decimal; pandas skips NaN and yields
NaN on an all-null column, which formats as `"nan"`. -/
def meanStr1 (l : List ℚ) : String :=
  match l with
  | [] => "nan"
  | _ :: _ => fmtTenthsQ (l.sum / (l.length : ℚ))

/-- The average age response template (my_app.py 137). -/
def averageAgeText (df : List ProcRow) : String :=
  "👥 The average age of passengers was " ++ meanStr1 (listSomes (df.map (·.age))) ++ " years"

/-- The gender breakdown response template (my_app.py 141). -/
def genderText (m f : ℕ) : String :=
  "👥 Passenger gender distribution:\nMale: " ++ toString m ++ "\nFemale: " ++ toString f

/-- The class breakdown response template (my_app.py 145). -/
def classText (c1 c2 c3 : ℕ) : String :=
  "🎫 Passenger class distribution:\nFirst Class: " ++ toString c1 ++
    "\nSecond Class: " ++ toString c2 ++ "\nThird Class: " ++ toString c3

/-- Model of `port_names.get(port, port)` (my_app.py 149): the three known codes map
to city names, any other code passes through verbatim. -/
def portName (p : String) : String :=
  if p = "S" then "Southampton"
  else if p = "C" then "Cherbourg"
  else if p = "Q" then "Queenstown"
  else p

/-- The port breakdown response (my_app.py 147-153): a header plus one line
per entry of `value_counts()`, in its iteration order. -/
def portText (vc : List (String × ℕ)) : String :=
  "🚢 Embarkation ports:\n" ++
    String.join (vc.map (fun pc => portName pc.1 ++ ": " ++ toString pc.2 ++ " passengers\n"))

/-- Model of `Series.mean()` as a currency string; `"nan"` on an all-null column. -/
def fareMeanStr (l : List ℚ) : String :=
  match l with
  | [] => "nan"
  | _ :: _ => fmtCents (l.sum / (l.length : ℚ))

/-- Model of `Series.max()` as a currency string; `"nan"` on an all-null column. -/
def fareMaxStr (l : List ℚ) : String :=
  match l with
  | [] => "nan"
  | v :: vs => fmtCents (vs.foldl max v)

/-- Model of `Series.min()` as a currency string; `"nan"` on an all-null column. -/
def fareMinStr (l : List ℚ) : String :=
  match l with
  | [] => "nan"
  | v :: vs => fmtCents (vs.foldl min v)

/-- The fare statistics response template (my_app.py 159). -/
def fareText (df : List ProcRow) : String :=
  let fares := listSomes (df.map (·.fare))
  "💰 Fare statistics:\nAverage: $" ++ fareMeanStr fares ++
    "\nHighest: $" ++ fareMaxStr fares ++ "\nLowest: $" ++ fareMinStr fares

/-- The fixed help text of the final `else` (my_app.py 162-168). -/
def helpText : String :=
  "💡 Try asking about:\n- Survival statistics\n- Passenger demographics (age, gender)\n" ++
    "- Ticket class distribution\n- Embarkation ports\n- Fare information\n" ++
    "Or use keywords like \x27show\x27, \x27plot\x27, or \x27chart\x27 for visualizations!"

/-- The fixed apology of the `except` clause (my_app.py 172). -/
def apologyText : String :=
  "❌ I apologize, but I couldn\x27t process that query. Please try rephrasing or use one of the example queries."

/-- The body of `process_query` inside its `try` (my_app.py 127-168).  With
a schema-complete frame none of the branches can raise — in particular the
survival branch's division by zero on an empty frame produces a numpy
`inf`/`nan` with a warning, not an exception — so every branch returns
`Except.ok`; the `Except` layer records where a raised exception would
escape to the catch-all. -/
def processQueryE (df : List ProcRow) (query : String) : Except PyError String :=
  match classifyText (lowerStr query) with
  | .survivalCount => .ok (survivalText (cntB (fun r => r.survived) df) df.length)
  | .averageAge => .ok (averageAgeText df)
  | .genderBreakdown =>
    .ok (genderText (cnt "male" (df.map (·.sex))) (cnt "female" (df.map (·.sex))))
  | .classBreakdown =>
    .ok (classText (cnt 1 (df.map (·.pclass))) (cnt 2 (df.map (·.pclass)))
      (cnt 3 (df.map (·.pclass))))
  | .portBreakdown => .ok (portText (valueCounts (df.map (·.embarked))))
  | .fareStats => .ok (fareText df)
  | .unrecognized => .ok helpText

/-- Model of `TitanicAgent.process_query` (my_app.py 126-172): the `except` clause
turns any raised exception into the fixed apology text. -/
def process_query (df : List ProcRow) (query : String) : String :=
  match processQueryE df query with
  | .ok s => s
  | .error _ => apologyText

/-! ### Concrete fixtures for counterexamples and witnesses -/

/-- A snapshot row with the given data fields and derived fields computed
the way `load_and_process_data` computes them from given quartile edges. -/
def mkRow (sv : Bool) (pc : ℕ) (sx : String) (ag fr : ℚ) (em : String) : ProcRow :=
  { survived := sv, pclass := pc, sex := sx, age := some ag, fare := some fr
    embarked := em, ageGroup := ageGroupOf ag
    fareCategory := qcutAssign fr 1 2 3 4 5 }

/-- Five-passenger frame: two males (one survivor), three females (two
survivors). -/
def dfGender : List ProcRow :=
  [mkRow true 1 "male" 30 1 "S", mkRow false 3 "male" 40 2 "S",
   mkRow true 1 "female" 25 3 "S", mkRow true 2 "female" 35 4 "C",
   mkRow false 3 "female" 20 5 "C"]

/-- Six-passenger frame whose class counts are pairwise distinct:
one passenger in class 1, two in class 2, three in class 3. -/
def dfClasses : List ProcRow :=
  [mkRow true 1 "male" 30 1 "S", mkRow false 2 "male" 40 2 "S",
   mkRow true 2 "female" 25 3 "S", mkRow false 3 "male" 35 4 "C",
   mkRow true 3 "female" 20 5 "C", mkRow false 3 "male" 50 5 "Q"]

/-- Three-passenger frame whose first-seen port is Q but whose most frequent
port is S. -/
def dfPorts : List ProcRow :=
  [mkRow true 1 "male" 30 1 "Q", mkRow false 2 "male" 40 2 "S",
   mkRow true 3 "female" 25 3 "S"]

/-- Two-passenger frame with only two distinct passenger classes. -/
def dfTwoClasses : List ProcRow :=
  [mkRow true 1 "male" 30 1 "S", mkRow false 2 "female" 40 2 "S"]

/-- One-passenger frame with a survivor. -/
def dfOne : List ProcRow := [mkRow true 1 "male" 30 1 "S"]

/-- A non-empty, schema-complete raw table in which every fare is the same,
so all five quartile edges coincide. -/
def tblConstFare : RawTable :=
  { survivedCol := [true, false, true, false]
    pclassCol := [1, 2, 3, 1]
    sexCol := ["male", "female", "male", "female"]
    ageCol := some [some 20, some 30, some 40, some 50]
    fareCol := some [some 8, some 8, some 8, some 8]
    embarkedCol := some [some "S", some "C", some "S", some "Q"] }

/-- A non-empty, schema-complete raw table containing a passenger of age
exactly 0; the fares 1..5 make the quartile edges 1,2,3,4,5, all distinct. -/
def tblAgeZero : RawTable :=
  { survivedCol := [true, false, true, false, true]
    pclassCol := [1, 2, 3, 1, 2]
    sexCol := ["male", "female", "male", "female", "male"]
    ageCol := some [some 0, some 20, some 30, some 40, some 50]
    fareCol := some [some 1, some 2, some 3, some 4, some 5]
    embarkedCol := some [some "S", some "C", some "S", some "Q", some "S"] }

/-- Well-formedness of a raw table: a DataFrame keeps all of its columns at
one shared length. -/
def RawTable.wf (tbl : RawTable) : Prop :=
  tbl.pclassCol.length = tbl.survivedCol.length ∧
  tbl.sexCol.length = tbl.survivedCol.length ∧
  (∀ l, tbl.ageCol = some l → l.length = tbl.survivedCol.length) ∧
  (∀ l, tbl.fareCol = some l → l.length = tbl.survivedCol.length) ∧
  (∀ l, tbl.embarkedCol = some l → l.length = tbl.survivedCol.length)

/-- A raw table whose `Age` column is missing. -/
def tblNoAge : RawTable :=
  { survivedCol := [true]
    pclassCol := [1]
    sexCol := ["male"]
    ageCol := none
    fareCol := some [some 1]
    embarkedCol := some [some "S"] }

/-! ### Lemmas about the counting and aggregation model -/

theorem cntB_le_length {α : Type} (p : α → Bool) (l : List α) : cntB p l ≤ l.length := by
  induction l with
  | nil => simp [cntB]
  | cons a t ih => simp only [cntB, List.length_cons]; split <;> omega

theorem cntB_congr {α : Type} {p q : α → Bool} {l : List α}
    (h : ∀ x ∈ l, p x = q x) : cntB p l = cntB q l := by
  induction l with
  | nil => rfl
  | cons a t ih =>
    simp only [cntB]
    rw [h a (by simp), ih (fun x hx => h x (by simp [hx]))]

theorem cntB_true_len {α : Type} (l : List α) : cntB (fun _ => true) l = l.length := by
  induction l with
  | nil => rfl
  | cons a t ih => simp [cntB, ih]; omega

theorem cnt_eq_cntB {α : Type} [DecidableEq α] (a : α) (l : List α) :
    cnt a l = cntB (fun x => decide (x = a)) l := by
  induction l with
  | nil => rfl
  | cons b t ih =>
    simp only [cnt, cntB, ih]
    congr 1
    by_cases hb : b = a <;> simp [hb]

theorem cntB_split {α : Type} (p q : α → Bool) (l : List α) :
    cntB p l = cntB (fun x => p x && q x) l + cntB (fun x => p x && !q x) l := by
  induction l with
  | nil => rfl
  | cons a t ih =>
    simp only [cntB]
    by_cases hp : p a <;> by_cases hq : q a <;> simp [hp, hq] <;> omega

theorem mem_uniqueAux {α : Type} [DecidableEq α] {v : α} :
    ∀ {l seen : List α}, v ∈ uniqueAux l seen → v ∉ seen ∧ v ∈ l := by
  intro l
  induction l with
  | nil => intro seen h; simp [uniqueAux] at h
  | cons a t ih =>
    intro seen h
    by_cases ha : a ∈ seen
    · rw [uniqueAux, if_pos ha] at h
      rcases ih h with ⟨h1, h2⟩
      exact ⟨h1, by simp [h2]⟩
    · rw [uniqueAux, if_neg ha] at h
      rcases List.mem_cons.mp h with rfl | h'
      · exact ⟨ha, by simp⟩
      · rcases ih h' with ⟨h1, h2⟩
        exact ⟨fun hv => h1 (by simp [hv]), by simp [h2]⟩

theorem mem_uniqueAux_of_mem {α : Type} [DecidableEq α] {v : α} :
    ∀ {l seen : List α}, v ∈ l → v ∉ seen → v ∈ uniqueAux l seen := by
  intro l
  induction l with
  | nil => intro seen h; simp at h
  | cons a t ih =>
    intro seen hv hs
    by_cases ha : a ∈ seen
    · rw [uniqueAux, if_pos ha]
      rcases List.mem_cons.mp hv with rfl | h'
      · exact absurd ha hs
      · exact ih h' hs
    · rw [uniqueAux, if_neg ha]
      by_cases hva : v = a
      · simp [hva]
      · rcases List.mem_cons.mp hv with rfl | h'
        · exact absurd rfl hva
        · exact List.mem_cons_of_mem _ (ih h' (by simp [hva, hs]))

theorem mem_uniqueFS {α : Type} [DecidableEq α] {v : α} {l : List α} :
    v ∈ uniqueFS l ↔ v ∈ l :=
  ⟨fun h => (mem_uniqueAux h).2, fun h => mem_uniqueAux_of_mem h (by simp)⟩

theorem nodup_uniqueAux {α : Type} [DecidableEq α] :
    ∀ (l seen : List α), (uniqueAux l seen).Nodup := by
  intro l
  induction l with
  | nil => intro seen; simp [uniqueAux]
  | cons a t ih =>
    intro seen
    by_cases ha : a ∈ seen
    · rw [uniqueAux, if_pos ha]; exact ih seen
    · rw [uniqueAux, if_neg ha]
      refine List.nodup_cons.mpr ⟨fun h => ?_, ih (a :: seen)⟩
      exact (mem_uniqueAux h).1 (by simp)

theorem nodup_uniqueFS {α : Type} [DecidableEq α] (l : List α) : (uniqueFS l).Nodup :=
  nodup_uniqueAux l []

theorem uniqueAux_sum {α : Type} [DecidableEq α] :
    ∀ (l seen : List α),
      ((uniqueAux l seen).map (fun v => cnt v l)).sum =
        cntB (fun x => decide (x ∉ seen)) l := by
  intro l
  induction l with
  | nil => intro seen; simp [uniqueAux, cntB]
  | cons a t ih =>
    intro seen
    have hcnt : ∀ v : α, cnt v (a :: t) = (if a = v then 1 else 0) + cnt v t := fun _ => rfl
    by_cases ha : a ∈ seen
    · rw [uniqueAux, if_pos ha]
      have hmap : (uniqueAux t seen).map (fun v => cnt v (a :: t)) =
          (uniqueAux t seen).map (fun v => cnt v t) := by
        refine List.map_congr_left (fun v hv => ?_)
        have hne : a ≠ v := fun h => (mem_uniqueAux hv).1 (h ▸ ha)
        rw [hcnt v, if_neg hne, Nat.zero_add]
      rw [hmap, ih seen]
      simp only [cntB, decide_eq_true_eq]
      rw [if_neg (by simpa using ha), Nat.zero_add]
    · rw [uniqueAux, if_neg ha]
      simp only [List.map_cons, List.sum_cons]
      have hmap : (uniqueAux t (a :: seen)).map (fun v => cnt v (a :: t)) =
          (uniqueAux t (a :: seen)).map (fun v => cnt v t) := by
        refine List.map_congr_left (fun v hv => ?_)
        have hne : a ≠ v := fun h => (mem_uniqueAux hv).1 (by simp [h])
        rw [hcnt v, if_neg hne, Nat.zero_add]
      rw [hmap, ih (a :: seen)]
      have hsplit := cntB_split (fun x => decide (x ∉ seen)) (fun x => decide (x = a)) t
      have h1 : cntB (fun x => decide (x ∉ seen) && decide (x = a)) t = cnt a t := by
        rw [cnt_eq_cntB]
        refine cntB_congr (fun x _ => ?_)
        by_cases hx : x = a
        · subst hx; simp [ha]
        · simp [hx]
      have h2 : cntB (fun x => decide (x ∉ seen) && !decide (x = a)) t =
          cntB (fun x => decide (x ∉ a :: seen)) t := by
        refine cntB_congr (fun x _ => ?_)
        by_cases hx : x = a
        · subst hx; simp [ha]
        · by_cases hxs : x ∈ seen <;> simp [hx, hxs]
      have hhead : cnt a (a :: t) = 1 + cnt a t := by rw [hcnt a, if_pos rfl]
      have hgoal : cntB (fun x => decide (x ∉ seen)) (a :: t) =
          1 + cntB (fun x => decide (x ∉ seen)) t := by
        simp only [cntB, decide_eq_true_eq]
        rw [if_pos (by simpa using ha)]
      rw [hhead, hgoal, hsplit, h1, h2]
      omega

theorem uniqueFS_cnt_sum {α : Type} [DecidableEq α] (l : List α) :
    ((uniqueFS l).map (fun v => cnt v l)).sum = l.length := by
  rw [uniqueFS, uniqueAux_sum l []]
  rw [cntB_congr (q := fun _ => true) (fun x _ => by simp)]
  exact cntB_true_len l

theorem valueCounts_perm {α : Type} [DecidableEq α] (l : List α) :
    (valueCounts l).Perm ((uniqueFS l).map (fun v => (v, cnt v l))) :=
  List.perm_insertionSort _ _

theorem valueCounts_length {α : Type} [DecidableEq α] (l : List α) :
    (valueCounts l).length = (uniqueFS l).length := by
  rw [(valueCounts_perm l).length_eq, List.length_map]

theorem valueCounts_sorted {α : Type} [DecidableEq α] (l : List α) :
    List.Sorted cntGe (valueCounts l) :=
  List.sorted_insertionSort _ _

theorem valueCounts_snd_sum {α : Type} [DecidableEq α] (l : List α) :
    ((valueCounts l).map (fun p => p.2)).sum = l.length := by
  have hp := (valueCounts_perm l).map (fun p : α × ℕ => p.2)
  rw [hp.sum_eq, List.map_map]
  rw [show ((fun p : α × ℕ => p.2) ∘ fun v => (v, cnt v l)) = fun v => cnt v l from rfl]
  exact uniqueFS_cnt_sum l

theorem mem_valueCounts {α : Type} [DecidableEq α] {l : List α} {p : α × ℕ}
    (h : p ∈ valueCounts l) : p.2 = cnt p.1 l ∧ p.1 ∈ l := by
  have hm := (valueCounts_perm l).mem_iff.mp h
  rcases List.mem_map.mp hm with ⟨v, hv, rfl⟩
  exact ⟨rfl, mem_uniqueFS.mp hv⟩

theorem valueCounts_mem_of_mem {α : Type} [DecidableEq α] {l : List α} {v : α}
    (h : v ∈ l) : (v, cnt v l) ∈ valueCounts l :=
  (valueCounts_perm l).mem_iff.mpr (List.mem_map_of_mem _ (mem_uniqueFS.mpr h))

theorem valueCounts_keys_nodup {α : Type} [DecidableEq α] (l : List α) :
    ((valueCounts l).map (fun p => p.1)).Nodup := by
  have hp := (valueCounts_perm l).map (fun p : α × ℕ => p.1)
  refine hp.nodup_iff.mpr ?_
  rw [List.map_map]
  rw [show ((fun p : α × ℕ => p.1) ∘ fun v => (v, cnt v l)) = id from rfl]
  simpa using nodup_uniqueFS l

/-! ### Lemmas about the binning and quantile model -/

theorem ageGroupOf_total {x : ℚ} (h0 : 0 < x) (h100 : x ≤ 100) :
    ∃ g, ageGroupOf x = some g := by
  unfold ageGroupOf
  split_ifs <;> first | exact ⟨_, rfl⟩ | linarith

theorem ageGroupOf_none {x : ℚ} (h : x ≤ 0 ∨ 100 < x) : ageGroupOf x = none := by
  unfold ageGroupOf
  rcases h with h | h <;> split_ifs <;> first | rfl | linarith

theorem ageGroupOf_child_iff {x : ℚ} : ageGroupOf x = some .child ↔ 0 < x ∧ x ≤ 12 := by
  unfold ageGroupOf
  split_ifs with h1 h2
  · exact ⟨fun h => by simp at h, fun h => by linarith [h.1]⟩
  · exact ⟨fun _ => ⟨by linarith, h2⟩, fun _ => rfl⟩
  all_goals exact ⟨fun h => by simp at h, fun h => absurd h.2 h2⟩

theorem qcutAssign_total {x e0 e1 e2 e3 e4 : ℚ} (hlo : e0 ≤ x) (hhi : x ≤ e4) :
    ∃ c, qcutAssign x e0 e1 e2 e3 e4 = some c := by
  unfold qcutAssign
  split_ifs <;> first | exact ⟨_, rfl⟩ | linarith

theorem sortQ_sorted (l : List ℚ) : List.Sorted (· ≤ ·) (sortQ l) :=
  List.sorted_insertionSort _ _

theorem sortQ_perm (l : List ℚ) : (sortQ l).Perm l :=
  List.perm_insertionSort _ _

theorem sorted_head_le {s : List ℚ} (hs : List.Sorted (· ≤ ·) s) {x : ℚ} (hx : x ∈ s) :
    s.getD 0 0 ≤ x := by
  cases s with
  | nil => simp at hx
  | cons a t =>
    rw [List.getD_cons_zero]
    rcases List.mem_cons.mp hx with rfl | h'
    · exact le_refl x
    · exact List.rel_of_sorted_cons hs x h'

theorem sorted_le_last {s : List ℚ} (hs : List.Sorted (· ≤ ·) s) {x : ℚ} (hx : x ∈ s) :
    x ≤ s.getD (s.length - 1) 0 := by
  induction s with
  | nil => simp at hx
  | cons a t ih =>
    cases t with
    | nil =>
      rcases List.mem_cons.mp hx with rfl | h'
      · simp
      · simp at h'
    | cons b u =>
      have hlen : (a :: b :: u).length - 1 = (b :: u).length - 1 + 1 := by
        simp
      rw [hlen, List.getD_cons_succ]
      have hlast_mem : (b :: u).getD ((b :: u).length - 1) 0 ∈ b :: u := by
        have hl : (b :: u).length - 1 < (b :: u).length := by simp
        rw [List.getD_eq_getElem _ _ hl]
        exact List.getElem_mem hl
      rcases List.mem_cons.mp hx with rfl | h'
      · exact List.rel_of_sorted_cons hs _ hlast_mem
      · exact ih hs.of_cons h'

theorem interpAt_zero (s : List ℚ) : interpAt s 0 = s.getD 0 0 := by
  unfold interpAt
  norm_num

theorem interpAt_last (s : List ℚ) (n : ℕ) (h1 : 1 ≤ n) :
    interpAt s ((n : ℚ) - 1) = s.getD (n - 1) 0 := by
  have hfl : ⌊((n : ℚ) - 1)⌋ = (n : ℤ) - 1 := by
    rw [show ((n : ℚ) - 1) = (((n : ℤ) - 1 : ℤ) : ℚ) by push_cast; ring, Int.floor_intCast]
  have htn : ((n : ℤ) - 1).toNat = n - 1 := by omega
  have hfrac : ((n : ℚ) - 1) - ((n - 1 : ℕ) : ℚ) = 0 := by
    rw [Nat.cast_sub h1]
    push_cast
    ring
  unfold interpAt
  rw [hfl, htn, hfrac, zero_mul, add_zero]

/-! ### Lemmas about imputation and the intent classifier -/

theorem medianQ_ne_none {l : List ℚ} (h : l ≠ []) : ∃ m, medianQ l = some m := by
  unfold medianQ
  split_ifs with h1 h2
  · exact absurd h1 h
  · exact ⟨_, rfl⟩
  · exact ⟨_, rfl⟩

theorem listSomes_eq_nil_iff {α : Type} (l : List (Option α)) :
    listSomes l = [] ↔ ∀ x ∈ l, x = none := by
  induction l with
  | nil => simp [listSomes]
  | cons a t ih =>
    cases a with
    | none => simp [listSomes, List.filterMap_cons]
    | some v => simp [listSomes, List.filterMap_cons]

theorem mem_listSomes_of_mem {α : Type} {l : List (Option α)} {x : α}
    (h : some x ∈ l) : x ∈ listSomes l := by
  rw [listSomes, List.mem_filterMap]
  exact ⟨some x, h, rfl⟩

theorem fillQ_length (col : List (Option ℚ)) : (fillQ col).length = col.length :=
  List.length_map _ _

theorem fillQ_all_some {col : List (Option ℚ)} (h : ¬ listSomes (fillQ col) = []) :
    ∀ x ∈ fillQ col, ∃ f, x = some f := by
  rcases hm : medianQ (listSomes col) with _ | m
  · exfalso
    have hnil : listSomes col = [] := by
      by_contra hne
      rcases medianQ_ne_none hne with ⟨m, hm'⟩
      rw [hm] at hm'
      cases hm'
    apply h
    rw [listSomes_eq_nil_iff]
    intro x hx
    rcases List.mem_map.mp hx with ⟨a, ha, rfl⟩
    rw [(listSomes_eq_nil_iff col).mp hnil a ha]
    simp [Option.orElse, hm]
  · intro x hx
    rcases List.mem_map.mp hx with ⟨a, ha, rfl⟩
    cases a with
    | none => exact ⟨m, by simp [Option.orElse, hm]⟩
    | some v => exact ⟨v, by simp [Option.orElse]⟩

theorem classifyText_eq_survival {q : String} (h : strHas "survived" q = true) :
    classifyText q = .survivalCount := by
  unfold classifyText
  rw [if_pos h]

theorem classifyText_ne_fare {q : String} (hg : hasChartWord q = true) :
    classifyText q ≠ .fareStats := by
  unfold classifyText
  split_ifs with h1 h2 h3 h4 h5 h6 <;> simp_all

theorem process_query_of_survival {df : List ProcRow} {q : String}
    (h : classifyText (lowerStr q) = .survivalCount) :
    process_query df q = survivalText (cntB (fun r => r.survived) df) df.length := by
  unfold process_query processQueryE
  rw [h]

theorem process_query_of_port {df : List ProcRow} {q : String}
    (h : classifyText (lowerStr q) = .portBreakdown) :
    process_query df q = portText (valueCounts (df.map (fun r => r.embarked))) := by
  unfold process_query processQueryE
  rw [h]

/-! ### Claim C10 -/

/-- C10: the error branch of the quartile-based FareCategory construction
is reachable on non-empty, schema-complete input: with every fare equal, all
five quartile edges coincide, `pd.qcut` raises, and preprocessing fails
instead of producing a snapshot. -/
theorem c10_qcut_failure_reachable :
    load_and_process_data (some tblConstFare) = .error .binEdges ∧
    tblConstFare.survivedCol.length = 4 ∧
    tblConstFare.ageCol ≠ none ∧ tblConstFare.fareCol ≠ none ∧
    tblConstFare.embarkedCol ≠ none := by
  refine ⟨?_, by decide, by decide, by decide, by decide⟩
  with_unfolding_all rfl

/-! ### Claim C6 -/

/-- C6 counterexample: the two documented startup failure modes are not
the only ones — a non-empty table with all required columns still makes
preprocessing fail, with an error that is neither `dataUnavailable` nor
`schemaError`. -/
theorem c6_counterexample :
    load_and_process_data (some tblConstFare) = .error .binEdges ∧
    tblConstFare.survivedCol ≠ [] ∧
    tblConstFare.ageCol ≠ none ∧ tblConstFare.fareCol ≠ none ∧
    tblConstFare.embarkedCol ≠ none ∧
    LoadError.binEdges ≠ LoadError.dataUnavailable ∧
    LoadError.binEdges ≠ LoadError.schemaError := by
  refine ⟨?_, by decide, by decide, by decide, by decide, by decide, by decide⟩
  with_unfolding_all rfl

/-- C6 (amended): preprocessing fails with `dataUnavailable` when the
source cannot be retrieved or is empty, and with `schemaError` when one of
the columns it touches (`Age`, `Embarked`, `Fare`) is absent — but these are
not the only failure modes: it can also fail while computing the fare
quartiles, as on `tblConstFare`.  All failures occur during preprocessing. -/
theorem c6_amended_failure_modes :
    load_and_process_data none = .error .dataUnavailable ∧
    (∀ tbl : RawTable, tbl.ageCol = none →
      load_and_process_data (some tbl) = .error .schemaError) ∧
    (∀ tbl : RawTable, ∀ ages, tbl.ageCol = some ages → tbl.embarkedCol = none →
      load_and_process_data (some tbl) = .error .schemaError) ∧
    (∀ tbl : RawTable, ∀ ages embs m, tbl.ageCol = some ages →
      tbl.embarkedCol = some embs → modeFirst (listSomes embs) = some m →
      tbl.fareCol = none →
      load_and_process_data (some tbl) = .error .schemaError) ∧
    load_and_process_data (some tblConstFare) = .error .binEdges := by
  refine ⟨rfl, ?_, ?_, ?_, ?_⟩
  · intro tbl h
    simp only [load_and_process_data, h]
  · intro tbl ages h1 h2
    simp only [load_and_process_data, h1, h2]
  · intro tbl ages embs m h1 h2 h3 h4
    simp only [load_and_process_data, h1, h2, h3, h4]
  · with_unfolding_all rfl

/-- C6 witness: the amended failure-mode theorem applied at a concrete
table with a missing `Age` column. -/
theorem c6_witness :
    load_and_process_data (some tblNoAge) = .error .schemaError :=
  c6_amended_failure_modes.2.1 tblNoAge rfl

/-! ### Claim C1 -/

/-- C1 counterexample: for the query "Compare survival rates between
males and females", the app *does* produce the GenderBreakdown text (the
gender branch of `process_query` has no chart-keyword guard) and produces
*no* chart at all (the query contains none of the five gate keywords that
make `main` call `create_visualization`). -/
theorem c1_counterexample :
    process_query dfGender "Compare survival rates between males and females" =
      genderText 2 3 ∧
    assistantChart dfGender "Compare survival rates between males and females" = none := by
  exact ⟨rfl, rfl⟩

/-- C1 (amended): on this query the textual pass fires — the
GenderBreakdown text is produced, since the textual gender rule has no
chart-override — and the system shows no chart because the query contains
none of show/plot/chart/graph/visualize; `create_visualization` itself,
were it invoked, would return the SurvivalByGenderChart. -/
theorem c1_amended_dual_pass (df : List ProcRow) :
    process_query df "Compare survival rates between males and females" =
      genderText (cnt "male" (df.map (fun r => r.sex)))
        (cnt "female" (df.map (fun r => r.sex))) ∧
    assistantChart df "Compare survival rates between males and females" = none ∧
    create_visualization df "Compare survival rates between males and females" =
      some (genderChart df) := by
  refine ⟨rfl, rfl, ?_⟩
  have hbar : pxBar (sexKeys df)
      ((sexKeys df).map (fun k => survivedPct df (fun r => r.sex = k)))
      "Survival Rate by Gender" = .ok (genderChart df) := by
    unfold pxBar genderChart
    rw [if_pos (List.length_map _ _).symm]
  have hE : createVisualizationE df "Compare survival rates between males and females" =
      (pxBar (sexKeys df)
        ((sexKeys df).map (fun k => survivedPct df (fun r => r.sex = k)))
        "Survival Rate by Gender").map some := rfl
  unfold create_visualization
  rw [hE, hbar]
  rfl

/-! ### Claim C5 -/

/-- C5: a query containing "fare" together with a chart keyword never
reaches the FareStats branch (the guard of my_app.py line 155 fails), and
the example query "Show me the fare distribution by class" matches no
visualization sub-rule either: the app answers with the help text and no
chart. -/
theorem c5_fare_chart_guard (df : List ProcRow) (q : String)
    (_hf : strHas "fare" (lowerStr q) = true)
    (hg : hasChartWord (lowerStr q) = true) :
    classifyText (lowerStr q) ≠ .fareStats ∧
    process_query df "Show me the fare distribution by class" = helpText ∧
    create_visualization df "Show me the fare distribution by class" = none ∧
    assistantChart df "Show me the fare distribution by class" = none := by
  exact ⟨classifyText_ne_fare hg, rfl, rfl, rfl⟩

/-- C5 witness: the guard theorem applied at the spec's example query. -/
theorem c5_witness :
    classifyText (lowerStr "Show me the fare distribution by class") ≠ .fareStats ∧
    process_query dfGender "Show me the fare distribution by class" = helpText ∧
    create_visualization dfGender "Show me the fare distribution by class" = none ∧
    assistantChart dfGender "Show me the fare distribution by class" = none :=
  c5_fare_chart_guard dfGender "Show me the fare distribution by class"
    (by decide) (by decide)

/-! ### Claim C7 -/

/-- C7: per-query errors never escape: an exception inside the body of
`process_query` is caught and becomes the fixed apology, an exception
inside a chart builder is caught and becomes a `none` chart, and in every
case the caller receives a plain value (the successful body result when no
exception is raised). -/
theorem c7_no_exception_escape (df : List ProcRow) (q : String) :
    (∀ e, processQueryE df q = .error e → process_query df q = apologyText) ∧
    (process_query df q = apologyText ∨ processQueryE df q = .ok (process_query df q)) ∧
    (∀ e, createVisualizationE df q = .error e → create_visualization df q = none) ∧
    (create_visualization df q = none ∨
      createVisualizationE df q = .ok (create_visualization df q)) := by
  refine ⟨?_, ?_, ?_, ?_⟩
  · intro e he
    unfold process_query
    rw [he]
  · cases h : processQueryE df q with
    | ok s => right; unfold process_query; rw [h]
    | error e => left; unfold process_query; rw [h]
  · intro e he
    unfold create_visualization
    rw [he]
  · cases h : createVisualizationE df q with
    | ok r => right; unfold create_visualization; rw [h]
    | error e => left; unfold create_visualization; rw [h]

/-- C7 witness: a reachable builder error (hard-coded three bar labels
against a two-class frame) converted to a `none` chart by the catch. -/
theorem c7_witness :
    create_visualization dfTwoClasses "show survival rate by class" = none :=
  (c7_no_exception_escape dfTwoClasses "show survival rate by class").2.2.1
    .lengthMismatch (by with_unfolding_all rfl)

/-! ### Claim C2 -/

/-- C2 counterexample: on a frame with one class-1, two class-2 and three
class-3 passengers, the pie slice labeled "First" carries the value 3 — the
count of the *most frequent* class (class 3), not the count of the class the
label names (class 1, which has 1 passenger).  `value_counts()` orders by
descending count while the labels are hard-coded positionally. -/
theorem c2_counterexample :
    create_visualization dfClasses "Create a pie chart of passenger classes" =
      some { kind := .pie, xLabels := ["First", "Second", "Third"],
             yValues := [3, 2, 1], title := "Distribution of Passenger Classes" } ∧
    cnt 1 (dfClasses.map (fun r => r.pclass)) = 1 ∧ ((3 : ℚ) ≠ 1) := by
  refine ⟨?_, by decide, by norm_num⟩
  with_unfolding_all rfl

/-- C2 (amended): for every query containing "pie chart" and "class"
that reaches the pie branch (it contains neither "age distribution" nor
"survival rate by class", which take precedence), on a frame with exactly
three distinct classes, the builder returns a pie chart with exactly the
three labels First/Second/Third, whose slice values are the per-class
counts in descending-count order (`value_counts` order, not the order of
the class each label names), and the slice values sum to the total
passenger count. -/
theorem c2_amended_pie_chart (df : List ProcRow) (q : String)
    (h1 : strHas "pie chart" (lowerStr q) = true)
    (h2 : strHas "class" (lowerStr q) = true)
    (h3 : strHas "age distribution" (lowerStr q) = false)
    (h4 : strHas "survival rate by class" (lowerStr q) = false)
    (h5 : (uniqueFS (df.map (fun r => r.pclass))).length = 3) :
    create_visualization df q =
      some { kind := .pie, xLabels := ["First", "Second", "Third"],
             yValues := (valueCounts (df.map (fun r => r.pclass))).map (fun p => (p.2 : ℚ)),
             title := "Distribution of Passenger Classes" } ∧
    ((valueCounts (df.map (fun r => r.pclass))).map (fun p => (p.2 : ℚ))).sum =
      (df.length : ℚ) ∧
    List.Sorted cntGe (valueCounts (df.map (fun r => r.pclass))) := by
  refine ⟨?_, ?_, valueCounts_sorted _⟩
  · unfold create_visualization createVisualizationE
    simp only [h1, h2, h3, h4, Bool.and_self, Bool.false_eq_true, if_false, if_true]
    have hcond : (["First", "Second", "Third"] : List String).length =
        ((valueCounts (df.map (fun r => r.pclass))).map (fun p => ((p.2 : ℕ) : ℚ))).length := by
      rw [List.length_map, valueCounts_length, h5]
      rfl
    unfold pxPie
    rw [if_pos hcond]
    rfl
  · rw [show (fun p : ℕ × ℕ => ((p.2 : ℕ) : ℚ)) =
        (fun n : ℕ => (n : ℚ)) ∘ (fun p : ℕ × ℕ => p.2) from rfl]
    rw [← List.map_map, ← Nat.cast_list_sum, valueCounts_snd_sum, List.length_map]

/-- C2 witness: the amended pie theorem applied to the spec's example
query on the six-passenger frame. -/
theorem c2_witness :
    create_visualization dfClasses "Create a pie chart of passenger classes" =
      some { kind := .pie, xLabels := ["First", "Second", "Third"],
             yValues := (valueCounts (dfClasses.map (fun r => r.pclass))).map
               (fun p => (p.2 : ℚ)),
             title := "Distribution of Passenger Classes" } ∧
    ((valueCounts (dfClasses.map (fun r => r.pclass))).map (fun p => (p.2 : ℚ))).sum =
      (dfClasses.length : ℚ) ∧
    List.Sorted cntGe (valueCounts (dfClasses.map (fun r => r.pclass))) :=
  c2_amended_pie_chart dfClasses "Create a pie chart of passenger classes"
    (by decide) (by decide) (by decide) (by decide) (by decide)

/-! ### Claim C8 -/

/-- C8 counterexample: on a frame whose first-seen port is Q but whose
most frequent port is S, the Southampton line comes first — the lines follow
the descending-count order of `value_counts()`, not first-seen order. -/
theorem c8_counterexample :
    process_query dfPorts "How many passengers embarked from each port?" =
      "🚢 Embarkation ports:\nSouthampton: 2 passengers\nQueenstown: 1 passengers\n" ∧
    uniqueFS (dfPorts.map (fun r => r.embarked)) = ["Q", "S"] ∧
    "🚢 Embarkation ports:\nSouthampton: 2 passengers\nQueenstown: 1 passengers\n" ≠
      portText [("Q", 1), ("S", 2)] := by
  exact ⟨rfl, by decide, by decide⟩

/-- C8 (amended): a PortBreakdown response has one line per distinct
port present, each line mapping S/C/Q to the city name (any other code
passes through verbatim) with that port's passenger count — but the lines
appear in descending-count order (the iteration order of `value_counts()`),
not in first-seen order. -/
theorem c8_amended_port_lines (df : List ProcRow) (q : String)
    (h : classifyText (lowerStr q) = .portBreakdown) :
    process_query df q = portText (valueCounts (df.map (fun r => r.embarked))) ∧
    List.Sorted cntGe (valueCounts (df.map (fun r => r.embarked))) ∧
    (∀ p ∈ valueCounts (df.map (fun r => r.embarked)),
      p.2 = cnt p.1 (df.map (fun r => r.embarked)) ∧ p.1 ∈ df.map (fun r => r.embarked)) ∧
    (∀ v ∈ df.map (fun r => r.embarked),
      (v, cnt v (df.map (fun r => r.embarked))) ∈ valueCounts (df.map (fun r => r.embarked))) ∧
    ((valueCounts (df.map (fun r => r.embarked))).map (fun p => p.1)).Nodup ∧
    portName "S" = "Southampton" ∧ portName "C" = "Cherbourg" ∧
    portName "Q" = "Queenstown" ∧
    (∀ p : String, p ≠ "S" → p ≠ "C" → p ≠ "Q" → portName p = p) := by
  refine ⟨process_query_of_port h, valueCounts_sorted _, fun p hp => mem_valueCounts hp,
    fun v hv => valueCounts_mem_of_mem hv, valueCounts_keys_nodup _, rfl, rfl, rfl, ?_⟩
  intro p h1 h2 h3
  unfold portName
  rw [if_neg h1, if_neg h2, if_neg h3]

/-- C8 witness: the amended port theorem applied to the example query on
the three-passenger frame. -/
theorem c8_witness :
    process_query dfPorts "How many passengers embarked from each port?" =
      portText (valueCounts (dfPorts.map (fun r => r.embarked))) ∧
    List.Sorted cntGe (valueCounts (dfPorts.map (fun r => r.embarked))) :=
  ⟨(c8_amended_port_lines dfPorts "How many passengers embarked from each port?"
      (by decide)).1,
   (c8_amended_port_lines dfPorts "How many passengers embarked from each port?"
      (by decide)).2.1⟩

/-! ### Claim C9 -/

/-- C9: when the frame has fewer than three distinct passenger classes,
both class charts hard-code the three labels First/Second/Third against a
per-class aggregation of another length, the builders raise a length
mismatch, the failure is caught, and `create_visualization` returns `none`
rather than a partial chart. -/
theorem c9_hardcoded_labels_failure (df : List ProcRow) (q1 q2 : String)
    (hcls : (uniqueFS (df.map (fun r => r.pclass))).length < 3)
    (h1a : strHas "age distribution" (lowerStr q1) = false)
    (h1b : strHas "survival rate by class" (lowerStr q1) = true)
    (h2a : strHas "age distribution" (lowerStr q2) = false)
    (h2b : strHas "survival rate by class" (lowerStr q2) = false)
    (h2c : strHas "pie chart" (lowerStr q2) = true)
    (h2d : strHas "class" (lowerStr q2) = true) :
    createVisualizationE df q1 = .error .lengthMismatch ∧
    create_visualization df q1 = none ∧
    createVisualizationE df q2 = .error .lengthMismatch ∧
    create_visualization df q2 = none := by
  have hlen1 : (classKeys df).length ≠ 3 := by
    unfold classKeys sortN
    rw [(List.perm_insertionSort _ _).length_eq]
    omega
  have hlen2 : (valueCounts (df.map (fun r => r.pclass))).length ≠ 3 := by
    rw [valueCounts_length]
    omega
  have hv1 : createVisualizationE df q1 = .error .lengthMismatch := by
    unfold createVisualizationE
    simp only [h1a, h1b, Bool.false_eq_true, if_false, if_true]
    unfold pxBar
    rw [if_neg (by rw [List.length_map]; simp only [List.length_cons, List.length_nil]; omega)]
    rfl
  have hv2 : createVisualizationE df q2 = .error .lengthMismatch := by
    unfold createVisualizationE
    simp only [h2a, h2b, h2c, h2d, Bool.and_self, Bool.false_eq_true, if_false, if_true]
    unfold pxPie
    rw [if_neg (by rw [List.length_map]; simp only [List.length_cons, List.length_nil]; omega)]
    rfl
  refine ⟨hv1, ?_, hv2, ?_⟩
  · unfold create_visualization
    rw [hv1]
  · unfold create_visualization
    rw [hv2]

/-- C9 witness: both chart requests on the two-class frame yield no
chart. -/
theorem c9_witness :
    createVisualizationE dfTwoClasses "show survival rate by class" =
      .error .lengthMismatch ∧
    create_visualization dfTwoClasses "show survival rate by class" = none ∧
    createVisualizationE dfTwoClasses "Create a pie chart of passenger classes" =
      .error .lengthMismatch ∧
    create_visualization dfTwoClasses "Create a pie chart of passenger classes" = none :=
  c9_hardcoded_labels_failure dfTwoClasses "show survival rate by class"
    "Create a pie chart of passenger classes" (by decide) (by decide) (by decide)
    (by decide) (by decide) (by decide) (by decide)

/-! ### Claim C4 -/

/-- C4: any query whose lowercased text contains "survived" takes the
first branch regardless of other keywords (it has highest precedence), the
reported survivor count never exceeds the total, the response is exactly the
"X passengers survived out of Y (Z%)" template, and on a non-empty frame
(the loaded snapshot is never empty) the percentage Z lies in [0, 100]. -/
theorem c4_survival_count (df : List ProcRow) (q : String)
    (hq : strHas "survived" (lowerStr q) = true) (hne : df ≠ []) :
    classifyText (lowerStr q) = .survivalCount ∧
    process_query df q = survivalText (cntB (fun r => r.survived) df) df.length ∧
    cntB (fun r => r.survived) df ≤ df.length ∧
    (0 : ℚ) ≤ (pctTenths (cntB (fun r => r.survived) df) df.length : ℚ) / 10 ∧
    (pctTenths (cntB (fun r => r.survived) df) df.length : ℚ) / 10 ≤ 100 := by
  have hcl := classifyText_eq_survival hq
  have hle := cntB_le_length (fun r => r.survived) df
  have htpos : 0 < df.length := List.length_pos.mpr hne
  refine ⟨hcl, process_query_of_survival hcl, hle, by positivity, ?_⟩
  have hx : ((cntB (fun r => r.survived) df : ℚ) * 1000 / (df.length : ℚ)) ≤ 1000 := by
    rw [div_le_iff₀ (by exact_mod_cast htpos)]
    have hc : ((cntB (fun r => r.survived) df : ℚ)) ≤ ((df.length : ℚ)) := by
      exact_mod_cast hle
    nlinarith
  have hround :
      round ((cntB (fun r => r.survived) df : ℚ) * 1000 / (df.length : ℚ)) ≤ 1000 := by
    rw [round_eq]
    calc ⌊(cntB (fun r => r.survived) df : ℚ) * 1000 / (df.length : ℚ) + 1 / 2⌋
        ≤ ⌊(1000 : ℚ) + 1 / 2⌋ := Int.floor_mono (by linarith)
      _ = 1000 := by
          rw [Int.floor_eq_iff]
          constructor <;> norm_num
  have hnat : pctTenths (cntB (fun r => r.survived) df) df.length ≤ 1000 := by
    unfold pctTenths
    omega
  rw [div_le_iff₀ (by norm_num)]
  calc (pctTenths (cntB (fun r => r.survived) df) df.length : ℚ) ≤ 1000 := by
        exact_mod_cast hnat
    _ = 100 * 10 := by norm_num

/-- C4 witness: the survival theorem applied to the example query on the
one-passenger frame. -/
theorem c4_witness :
    classifyText (lowerStr "How many passengers survived?") = .survivalCount ∧
    process_query dfOne "How many passengers survived?" =
      survivalText (cntB (fun r => r.survived) dfOne) dfOne.length ∧
    cntB (fun r => r.survived) dfOne ≤ dfOne.length ∧
    (0 : ℚ) ≤ (pctTenths (cntB (fun r => r.survived) dfOne) dfOne.length : ℚ) / 10 ∧
    (pctTenths (cntB (fun r => r.survived) dfOne) dfOne.length : ℚ) / 10 ≤ 100 :=
  c4_survival_count dfOne "How many passengers survived?" (by decide) (by decide)

/-! ### Claim C3 -/

/-- Each row of `buildRows` is determined by its index: its data fields come
from the filled columns and its derived fields from the binning of those
same entries. -/
theorem buildRows_mem {tbl : RawTable} {agesF : List (Option ℚ)} {embsF : List String}
    {faresF : List (Option ℚ)} {vals : List ℚ} {r : ProcRow}
    (hr : r ∈ buildRows tbl agesF embsF faresF vals) :
    ∃ i, i < tbl.survivedCol.length ∧
      r.age = agesF.getD i none ∧
      r.fare = faresF.getD i none ∧
      r.ageGroup = (agesF.getD i none).bind ageGroupOf ∧
      r.fareCategory = (faresF.getD i none).bind (fun f =>
        qcutAssign f (edgeAt vals 0) (edgeAt vals (1 / 4)) (edgeAt vals (1 / 2))
          (edgeAt vals (3 / 4)) (edgeAt vals 1)) := by
  rcases List.mem_map.mp hr with ⟨i, hi, rfl⟩
  exact ⟨i, List.mem_range.mp hi, rfl, rfl, rfl, rfl⟩

/-- C3 counterexample: preprocessing succeeds on `tblAgeZero`, whose
first passenger has age exactly 0 — the first bin's lower bound — yet that
record receives *no* AgeGroup: `pd.cut`'s default leaves the lower bound of
the first bin open, so the assignment is not total. -/
theorem c3_counterexample :
    (load_and_process_data (some tblAgeZero)).map
        (fun rows => rows.map (fun r => (r.age, r.ageGroup))) =
      .ok [(some 0, none), (some 20, some .youngAdult), (some 30, some .youngAdult),
           (some 40, some .adult), (some 50, some .adult)] := by
  with_unfolding_all rfl

/-- C3 (amended): in any successfully preprocessed snapshot every record
carries a non-null fare and exactly one FareCategory, and AgeGroup is
assigned by the fixed bins with right-closed, left-open intervals *including
the first* (the lower bound 0 is excluded, per `pd.cut`'s default): a record
whose age lies in (0, 100] gets exactly one AgeGroup, while a record with
age 0 or below, or above 100, gets none. -/
theorem c3_amended_buckets (tbl : RawTable) (rows : List ProcRow)
    (hwf : tbl.wf) (hok : load_and_process_data (some tbl) = .ok rows) :
    ∀ r ∈ rows,
      ((∃ f, r.fare = some f) ∧ (∃ c, r.fareCategory = some c)) ∧
      (∀ a, r.age = some a → r.ageGroup = ageGroupOf a) ∧
      (∀ a, r.age = some a → 0 < a → a ≤ 100 → ∃ g, r.ageGroup = some g) ∧
      (∀ a, r.age = some a → (a ≤ 0 ∨ 100 < a) → r.ageGroup = none) ∧
      (∀ a, r.age = some a → (r.ageGroup = some .child ↔ 0 < a ∧ a ≤ 12)) := by
  rcases hag : tbl.ageCol with _ | ages
  · simp only [load_and_process_data, hag] at hok
    exact absurd hok (by simp)
  rcases hemb : tbl.embarkedCol with _ | embs
  · simp only [load_and_process_data, hag, hemb] at hok
    exact absurd hok (by simp)
  rcases hmode : modeFirst (listSomes embs) with _ | m
  · simp only [load_and_process_data, hag, hemb, hmode] at hok
    exact absurd hok (by simp)
  rcases hfare : tbl.fareCol with _ | fares
  · simp only [load_and_process_data, hag, hemb, hmode, hfare] at hok
    exact absurd hok (by simp)
  simp only [load_and_process_data, hag, hemb, hmode, hfare] at hok
  split_ifs at hok with hempty hnodup
  rw [Except.ok.injEq] at hok
  subst hok
  intro r hr
  rcases buildRows_mem hr with ⟨i, hi', hageEq, hfareEq, hagEq, hfcEq⟩
  have hflen : (fillQ fares).length = tbl.survivedCol.length := by
    rw [fillQ_length]
    exact hwf.2.2.2.1 fares hfare
  have hifare : i < (fillQ fares).length := by omega
  have hfmem : (fillQ fares).getD i none ∈ fillQ fares := by
    rw [List.getD_eq_getElem _ _ hifare]
    exact List.getElem_mem hifare
  rcases fillQ_all_some hempty _ hfmem with ⟨f, hf⟩
  have hfvals : f ∈ listSomes (fillQ fares) :=
    mem_listSomes_of_mem (hf ▸ hfmem)
  have hvlen : 1 ≤ (listSomes (fillQ fares)).length := by
    rcases hl : listSomes (fillQ fares) with _ | ⟨v, vs⟩
    · exact absurd hl hempty
    · simp
  have hfs : f ∈ sortQ (listSomes (fillQ fares)) :=
    (sortQ_perm _).mem_iff.mpr hfvals
  have hlo : edgeAt (listSomes (fillQ fares)) 0 ≤ f := by
    rw [edgeAt, mul_zero, interpAt_zero]
    exact sorted_head_le (sortQ_sorted _) hfs
  have hhi : f ≤ edgeAt (listSomes (fillQ fares)) 1 := by
    rw [edgeAt, mul_one, interpAt_last _ _ hvlen]
    have hslen : (sortQ (listSomes (fillQ fares))).length =
        (listSomes (fillQ fares)).length := (sortQ_perm _).length_eq
    rw [← hslen]
    exact sorted_le_last (sortQ_sorted _) hfs
  refine ⟨⟨⟨f, by rw [hfareEq, hf]⟩, ?_⟩, ?_, ?_, ?_, ?_⟩
  · rw [hfcEq, hf]
    exact qcutAssign_total hlo hhi
  · intro a ha
    rw [hageEq] at ha
    rw [hagEq, ha]
    rfl
  · intro a ha h0 h100
    rw [hageEq] at ha
    rw [hagEq, ha]
    exact ageGroupOf_total h0 h100
  · intro a ha hout
    rw [hageEq] at ha
    rw [hagEq, ha]
    exact ageGroupOf_none hout
  · intro a ha
    rw [hageEq] at ha
    rw [hagEq, ha]
    exact ageGroupOf_child_iff

/-- C3 witness: the bucket theorem applied to the snapshot loaded from
`tblAgeZero`, at its second record (age 20, fare 2). -/
theorem c3_witness :
    (∃ f, (((load_and_process_data (some tblAgeZero)).toOption.getD []).getD 1
        (mkRow true 1 "" 1 1 "")).fare = some f) ∧
    (∃ c, (((load_and_process_data (some tblAgeZero)).toOption.getD []).getD 1
        (mkRow true 1 "" 1 1 "")).fareCategory = some c) :=
  (c3_amended_buckets tblAgeZero
    ((load_and_process_data (some tblAgeZero)).toOption.getD [])
    (by
      refine ⟨rfl, rfl, ?_, ?_, ?_⟩ <;>
        · intro l hl
          simp only [tblAgeZero] at hl
          cases hl
          rfl)
    (by with_unfolding_all rfl)
    (((load_and_process_data (some tblAgeZero)).toOption.getD []).getD 1
      (mkRow true 1 "" 1 1 ""))
    (by with_unfolding_all decide)).1

end TitanicApp
